import Mathlib

/-!
# Verified model of the Databricks REST-polling SQL adapter

Shallow embedding of `sqltoolkit/connectors.py` (classes
`DatabricksSQLConnection`, `DatabricksCursor`, `DatabricksConnector`) and of
the connector dispatch `_connector_from_config` in `sqltoolkit_mcp/server.py`.

Modelling conventions:
* JSON payloads returned by the Databricks SQL Statement Execution API are
  modelled structurally: every `dict.get` that may miss a key becomes an
  `Option` field, and Python's `x or {}` / `.get(k, default)` becomes
  `Option.getD`.  A JSON `null` value and an absent key are both `none`.
* The row-cell type is a parameter `α` (the adapter performs no coercion on
  cell values).
* Network traffic is made explicit: the poll loop receives the backend's
  answers as a function `Nat → StatementResponse α` giving the payload of the
  k-th GET status call (0-indexed), and every operation returns, next to its
  outcome, the number of GET calls it issued.  The unbounded `while True`
  poll loop is run on explicit fuel; `ExecOutcome.fuelExhausted` marks a run
  that is still polling after `fuel` GET calls.
* The source raises `RuntimeError` at four distinct sites with four distinct
  messages; following the specification's taxonomy these sites are modelled
  as the distinct constructors `statementError` (backend reported
  FAILED/CANCELED), `timeoutError` (poll budget exhausted, source message
  "Timed out waiting for Databricks query to finish.") and `protocolError`
  (missing statement_id, source message
  "Databricks response missing statement_id.").
-/

set_option autoImplicit false

/-! ## Python string helpers -/

/-- Python truthiness of an optional string: `None` and `""` are falsy
(`if not statement_id:`, `if not token:`). -/
def pyFalsyOptStr : Option String → Bool
  | none => true
  | some s => s.data.isEmpty

/-- Python `str.upper` for the ASCII connector-type names, on the char list. -/
def pyUpper (s : String) : String := String.mk (s.data.map Char.toUpper)

/-! ## Databricks statement-execution payloads

Shape (see `_submit_statement` / `_poll_for_completion`):
`{statement_id?, status: {state?, error: {message?}?}?,
  result: {manifest: {schema: [{name?}...]?}?, data_array?}?}`. -/

/-- One entry of `result.manifest.schema`; `col.get("name")`. -/
structure SchemaColumn where
  name : Option String
deriving DecidableEq

/-- `result.manifest`. -/
structure ResultManifest where
  schema : Option (List SchemaColumn)
deriving DecidableEq

/-- `result` of a statement payload. -/
structure StatementResult (α : Type) where
  manifest : Option ResultManifest
  dataArray : Option (List (List α))
deriving DecidableEq

/-- `status.error`. -/
structure StatusError where
  message : Option String
deriving DecidableEq

/-- `status` of a statement payload. -/
structure StatementStatus where
  state : Option String
  error : Option StatusError
deriving DecidableEq

/-- A full statement payload as returned by the submit POST and by every
status GET. -/
structure StatementResponse (α : Type) where
  statementId : Option String
  status : Option StatementStatus
  result : Option (StatementResult α)
deriving DecidableEq

def emptyStatus : StatementStatus := { state := none, error := none }

def emptyStatusError : StatusError := { message := none }

def emptyManifest : ResultManifest := { schema := none }

def emptyResult {α : Type} : StatementResult α := { manifest := none, dataArray := none }

/-- `(payload.get("status") or {}).get("state")`. -/
def responseState {α : Type} (p : StatementResponse α) : Option String :=
  (p.status.getD emptyStatus).state

/-- The message of the `RuntimeError` raised on a FAILED/CANCELED poll
response:
`((payload.get("status") or {}).get("error") or {}).get("message",
"Unknown Databricks error.")` interpolated into
`f"Databricks query failed: {message}"`. -/
def statementFailureMessage {α : Type} (p : StatementResponse α) : String :=
  "Databricks query failed: " ++
    (((p.status.getD emptyStatus).error.getD emptyStatusError).message.getD
      "Unknown Databricks error.")

/-- `result.get("manifest", {}).get("schema") or []` on a final payload. -/
def payloadSchema {α : Type} (p : StatementResponse α) : List SchemaColumn :=
  ((p.result.getD emptyResult).manifest.getD emptyManifest).schema.getD []

/-- `columns = [col.get("name") for col in schema]`. -/
def payloadColumns {α : Type} (p : StatementResponse α) : List (Option String) :=
  (payloadSchema p).map (fun col => col.name)

/-- `data_array = result.get("data_array") or []`. -/
def payloadRows {α : Type} (p : StatementResponse α) : List (List α) :=
  (p.result.getD emptyResult).dataArray.getD []

/-- Whether a status string is terminal for the poll loop
(`SUCCEEDED`, `FAILED` or `CANCELED`). -/
def isTerminal (s : Option String) : Bool :=
  s == some "SUCCEEDED" || s == some "FAILED" || s == some "CANCELED"

/-! ## The submit / poll state machine (`_execute_statement`,
`_poll_for_completion`) -/

/-- Outcome of `_execute_statement`, one constructor per exit of the source
(the three `RuntimeError` sites are distinguished by their source messages,
see the module header), plus `fuelExhausted` for a poll loop still running
after the given fuel. -/
inductive ExecOutcome (α : Type) where
  | ok (payload : StatementResponse α)
  | statementError (message : String)
  | timeoutError
  | protocolError
  | fuelExhausted
deriving DecidableEq

/-- The poll loop body of `_poll_for_completion`.  `c` is the value of the
source's `attempts` counter at the top of the loop, which equals the 0-based
index of the GET call made in this iteration; `backend k` is the payload of
the k-th GET.  Returns the outcome together with the number of GET calls
issued.  After a non-terminal payload the source sets `attempts = c + 1` and
raises the timeout iff `max_poll_attempts is not None and attempts >=
max_poll_attempts`. -/
def pollAux {α : Type} (maxPollAttempts : Option Nat)
    (backend : Nat → StatementResponse α) : Nat → Nat → ExecOutcome α × Nat
  | _, 0 => (ExecOutcome.fuelExhausted, 0)
  | c, fuel + 1 =>
    let payload := backend c
    if responseState payload = some "SUCCEEDED" then
      (ExecOutcome.ok payload, 1)
    else if responseState payload = some "FAILED" ∨
        responseState payload = some "CANCELED" then
      (ExecOutcome.statementError (statementFailureMessage payload), 1)
    else
      match maxPollAttempts with
      | some n =>
        if n ≤ c + 1 then (ExecOutcome.timeoutError, 1)
        else
          let r := pollAux maxPollAttempts backend (c + 1) fuel
          (r.1, r.2 + 1)
      | none =>
        let r := pollAux maxPollAttempts backend (c + 1) fuel
        (r.1, r.2 + 1)

/-- `_poll_for_completion`: the loop starts with `attempts = 0`. -/
def pollForCompletion {α : Type} (maxPollAttempts : Option Nat)
    (backend : Nat → StatementResponse α) (fuel : Nat) : ExecOutcome α × Nat :=
  pollAux maxPollAttempts backend 0 fuel

/-- `_execute_statement`: use the submit payload directly when it is already
`SUCCEEDED`; otherwise require a truthy `statement_id` and poll. -/
def executeStatement {α : Type} (maxPollAttempts : Option Nat)
    (initial : StatementResponse α) (backend : Nat → StatementResponse α)
    (fuel : Nat) : ExecOutcome α × Nat :=
  if responseState initial = some "SUCCEEDED" then
    (ExecOutcome.ok initial, 0)
  else if pyFalsyOptStr initial.statementId then
    (ExecOutcome.protocolError, 0)
  else
    pollForCompletion maxPollAttempts backend fuel

/-! ## Claim C3 and C4 theorems -/

/-- Claim C3: a submit response whose initial status is already `SUCCEEDED`
is used directly as the result and zero GET poll calls are issued. -/
theorem submit_succeeded_short_circuits {α : Type}
    (maxPollAttempts : Option Nat) (initial : StatementResponse α)
    (backend : Nat → StatementResponse α) (fuel : Nat)
    (h : responseState initial = some "SUCCEEDED") :
    executeStatement maxPollAttempts initial backend fuel =
      (ExecOutcome.ok initial, 0) := by
  simp [executeStatement, h]

/-- Concrete run of `submit_succeeded_short_circuits`. -/
def succeededResponse : StatementResponse Int :=
  { statementId := some "stmt-1"
    status := some { state := some "SUCCEEDED", error := none }
    result := none }

theorem submit_succeeded_short_circuits_witness :
    executeStatement (some 120) succeededResponse (fun _ => succeededResponse) 9 =
      (ExecOutcome.ok succeededResponse, 0) :=
  submit_succeeded_short_circuits (some 120) succeededResponse
    (fun _ => succeededResponse) 9 (by decide)

/-- Claim C4: a submit response that is not `SUCCEEDED` and carries no
`statement_id` raises the protocol error immediately, with zero poll GET
calls issued (the source also treats an empty-string id this way, since
`if not statement_id` is a Python truthiness test). -/
theorem missing_statement_id_fails_fast {α : Type}
    (maxPollAttempts : Option Nat) (initial : StatementResponse α)
    (backend : Nat → StatementResponse α) (fuel : Nat)
    (h1 : responseState initial ≠ some "SUCCEEDED")
    (h2 : initial.statementId = none) :
    executeStatement maxPollAttempts initial backend fuel =
      (ExecOutcome.protocolError, 0) := by
  simp [executeStatement, h1, h2, pyFalsyOptStr]

/-- Unfolding of `isTerminal` into the three per-state disequalities. -/
theorem isTerminal_false_iff (s : Option String) :
    isTerminal s = false ↔
      s ≠ some "SUCCEEDED" ∧ s ≠ some "FAILED" ∧ s ≠ some "CANCELED" := by
  simp [isTerminal, and_assoc]

/-- Against a backend that never reports a terminal state and a poll budget
`n` with remaining budget `n - c`, the loop raises the timeout after exactly
`n - c` further GET calls. -/
theorem pollAux_timeout {α : Type} (backend : Nat → StatementResponse α)
    (n : Nat) (hb : ∀ k, isTerminal (responseState (backend k)) = false) :
    ∀ fuel c, c < n → n - c ≤ fuel →
      pollAux (some n) backend c fuel = (ExecOutcome.timeoutError, n - c) := by
  intro fuel
  induction fuel with
  | zero => intro c hc hf; omega
  | succ fuel ih =>
    intro c hc hf
    obtain ⟨hs, hfl, hcn⟩ := (isTerminal_false_iff _).mp (hb c)
    by_cases hle : n ≤ c + 1
    · have hn : n - c = 1 := by omega
      simp [pollAux, hs, hfl, hcn, hle, hn]
    · have hrec := ih (c + 1) (by omega) (by omega)
      simp only [pollAux, hs, hfl, hcn, if_false, hle, if_neg, hrec]
      simp [hs, hfl, hcn, hle, hrec]
      omega

/-- Against a backend that never reports a terminal state and no poll budget,
the loop is still polling after any amount of fuel, one GET call per unit of
fuel: it never raises the timeout. -/
theorem pollAux_noBudget {α : Type} (backend : Nat → StatementResponse α)
    (hb : ∀ k, isTerminal (responseState (backend k)) = false) :
    ∀ fuel c, pollAux none backend c fuel = (ExecOutcome.fuelExhausted, fuel) := by
  intro fuel
  induction fuel with
  | zero => intro c; simp [pollAux]
  | succ fuel ih =>
    intro c
    obtain ⟨hs, hfl, hcn⟩ := (isTerminal_false_iff _).mp (hb c)
    simp [pollAux, hs, hfl, hcn, ih (c + 1)]

/-- If the first terminal payload the loop meets (after `k` non-terminal
ones) reports `FAILED` or `CANCELED`, the loop stops with the statement
error built from that payload after exactly `k + 1` GET calls. -/
theorem pollAux_failure {α : Type} (maxPollAttempts : Option Nat)
    (backend : Nat → StatementResponse α) :
    ∀ k c fuel,
      (∀ j, j < k → isTerminal (responseState (backend (c + j))) = false) →
      (responseState (backend (c + k)) = some "FAILED" ∨
        responseState (backend (c + k)) = some "CANCELED") →
      (∀ n, maxPollAttempts = some n → c + k < n) →
      k < fuel →
      pollAux maxPollAttempts backend c fuel =
        (ExecOutcome.statementError (statementFailureMessage (backend (c + k))),
          k + 1) := by
  intro k
  induction k with
  | zero =>
    intro c fuel hpre hterm hmax hf
    obtain ⟨f, rfl⟩ : ∃ f, fuel = f + 1 := ⟨fuel - 1, by omega⟩
    simp only [Nat.add_zero] at hterm
    rcases hterm with h | h <;> simp [pollAux, h]
  | succ k ih =>
    intro c fuel hpre hterm hmax hf
    obtain ⟨f, rfl⟩ : ∃ f, fuel = f + 1 := ⟨fuel - 1, by omega⟩
    obtain ⟨hs, hfl, hcn⟩ := (isTerminal_false_iff _).mp
      (by simpa using hpre 0 (by omega))
    have hidx : c + 1 + k = c + (k + 1) := by omega
    have hpre2 : ∀ j, j < k →
        isTerminal (responseState (backend (c + 1 + j))) = false := by
      intro j hj
      have h := hpre (j + 1) (by omega)
      have he : c + (j + 1) = c + 1 + j := by omega
      rwa [he] at h
    have hterm2 : responseState (backend (c + 1 + k)) = some "FAILED" ∨
        responseState (backend (c + 1 + k)) = some "CANCELED" := by
      rw [hidx]; exact hterm
    have hmax2 : ∀ m, maxPollAttempts = some m → c + 1 + k < m := by
      intro m hm
      have := hmax m hm
      omega
    have hrec := ih (c + 1) f hpre2 hterm2 hmax2 (by omega)
    rw [hidx] at hrec
    cases hM : maxPollAttempts with
    | some n =>
      have hlt : ¬ n ≤ c + 1 := by have := hmax n hM; omega
      rw [hM] at hrec
      simp [pollAux, hs, hfl, hcn, hlt, hrec]
    | none =>
      rw [hM] at hrec
      simp [pollAux, hs, hfl, hcn, hrec]

/-- Claim C1 (amended): for a pending submit response with a truthy
statement id and a backend that never reports a terminal state: with
`max_poll_attempts = n ≥ 1` the execution raises the timeout error after
exactly `n` GET status calls; with `max_poll_attempts = 0` a single GET is
still issued before the timeout error; with `max_poll_attempts = None` the
loop never raises the timeout error and is still polling after any fuel,
having issued one GET per unit of fuel. -/
theorem poll_budget_timeout {α : Type} (initial : StatementResponse α)
    (backend : Nat → StatementResponse α)
    (h1 : responseState initial ≠ some "SUCCEEDED")
    (h2 : pyFalsyOptStr initial.statementId = false)
    (hb : ∀ k, isTerminal (responseState (backend k)) = false) :
    (∀ n fuel, 1 ≤ n → n ≤ fuel →
      executeStatement (some n) initial backend fuel =
        (ExecOutcome.timeoutError, n)) ∧
    (∀ fuel, 1 ≤ fuel →
      executeStatement (some 0) initial backend fuel =
        (ExecOutcome.timeoutError, 1)) ∧
    (∀ fuel, executeStatement none initial backend fuel =
        (ExecOutcome.fuelExhausted, fuel)) := by
  refine ⟨?_, ?_, ?_⟩
  · intro n fuel hn hf
    have h := pollAux_timeout backend n hb fuel 0 (by omega) (by omega)
    simp only [Nat.sub_zero] at h
    simp [executeStatement, pollForCompletion, h1, h2, h]
  · intro fuel hf
    obtain ⟨f, rfl⟩ : ∃ f, fuel = f + 1 := ⟨fuel - 1, by omega⟩
    obtain ⟨hs, hfl, hcn⟩ := (isTerminal_false_iff _).mp (hb 0)
    simp [executeStatement, pollForCompletion, h1, h2, pollAux, hs, hfl, hcn]
  · intro fuel
    have h := pollAux_noBudget backend hb fuel 0
    simp [executeStatement, pollForCompletion, h1, h2, h]

/-- A pending submit payload carrying a statement id. -/
def pendingResponse : StatementResponse Int :=
  { statementId := some "stmt-7"
    status := some { state := some "PENDING", error := none }
    result := none }

/-- A backend that answers every GET status call with a pending payload. -/
def pendingBackend : Nat → StatementResponse Int := fun _ => pendingResponse

theorem poll_budget_timeout_witness :
    executeStatement (some 3) pendingResponse pendingBackend 10 =
      (ExecOutcome.timeoutError, 3) ∧
    executeStatement none pendingResponse pendingBackend 7 =
      (ExecOutcome.fuelExhausted, 7) := by
  have h := poll_budget_timeout pendingResponse pendingBackend (by decide)
    (by decide)
    (fun k => by show isTerminal (responseState pendingResponse) = false; decide)
  exact ⟨h.1 3 10 (by decide) (by decide), h.2.2 7⟩

/-- Counterexample to claim C1 as stated: with `max_poll_attempts` set to
`N = 0` and a backend that never reports a terminal state, the source still
issues one GET status call (the timeout check `attempts >= max_poll_attempts`
only runs after a GET), so the execution raises the timeout error after 1 GET
call, not after exactly `N = 0` GET calls. -/
theorem poll_budget_timeout_zero_cex :
    executeStatement (some 0) pendingResponse pendingBackend 5 =
      (ExecOutcome.timeoutError, 1) ∧ (1 : Nat) ≠ 0 := by
  exact ⟨by decide, by decide⟩

/-- Claim C2: when the poll loop meets a `FAILED` or `CANCELED` payload after
`k` non-terminal ones (and the budget has not run out earlier), it stops with
the statement error whose message embeds the backend's `error.message`
verbatim — defaulting to "Unknown Databricks error." when the error body is
absent — and issues exactly `k + 1` GET calls: no further poll requests
follow the terminal state. -/
theorem poll_failure_statement_error {α : Type} (maxPollAttempts : Option Nat)
    (backend : Nat → StatementResponse α) (k fuel : Nat)
    (hpre : ∀ j, j < k → isTerminal (responseState (backend j)) = false)
    (hterm : responseState (backend k) = some "FAILED" ∨
      responseState (backend k) = some "CANCELED")
    (hmax : ∀ n, maxPollAttempts = some n → k < n)
    (hf : k < fuel) :
    pollForCompletion maxPollAttempts backend fuel =
      (ExecOutcome.statementError (statementFailureMessage (backend k)),
        k + 1) := by
  have h := pollAux_failure maxPollAttempts backend k 0 fuel
    (by simpa using hpre) (by simpa using hterm) (by simpa using hmax) hf
  simpa [pollForCompletion] using h

/-- A backend whose second GET answer is `FAILED` with an error message. -/
def failingBackend : Nat → StatementResponse Int := fun k =>
  if k = 0 then
    { statementId := some "stmt-9"
      status := some { state := some "RUNNING", error := none }
      result := none }
  else
    { statementId := some "stmt-9"
      status := some { state := some "FAILED"
                       error := some { message := some "bad query" } }
      result := none }

/-- A backend whose first GET answer is `CANCELED` without an error body. -/
def canceledBackend : Nat → StatementResponse Int := fun _ =>
  { statementId := some "stmt-10"
    status := some { state := some "CANCELED", error := none }
    result := none }

theorem poll_failure_statement_error_witness :
    pollForCompletion (some 120) failingBackend 9 =
      (ExecOutcome.statementError "Databricks query failed: bad query", 2) ∧
    pollForCompletion none canceledBackend 9 =
      (ExecOutcome.statementError
        "Databricks query failed: Unknown Databricks error.", 1) := by
  constructor
  · have h := poll_failure_statement_error (some 120) failingBackend 1 9
      (by intro j hj; have hz : j = 0 := by omega
          subst hz; decide)
      (by decide)
      (by intro n hn; simp at hn; omega)
      (by decide)
    exact h.trans (by decide)
  · have h := poll_failure_statement_error none canceledBackend 0 9
      (by intro j hj; omega)
      (by decide)
      (by intro n hn; simp at hn)
      (by decide)
    exact h.trans (by decide)

/-- A pending submit payload that lacks a statement id. -/
def pendingNoIdResponse : StatementResponse Int :=
  { statementId := none
    status := some { state := some "PENDING", error := none }
    result := none }

theorem missing_statement_id_fails_fast_witness :
    executeStatement (some 120) pendingNoIdResponse (fun _ => pendingNoIdResponse) 9 =
      (ExecOutcome.protocolError, 0) :=
  missing_statement_id_fails_fast (some 120) pendingNoIdResponse
    (fun _ => pendingNoIdResponse) 9 (by decide) rfl

/-! ## Result shaping (`run_query`) and the cursor (`DatabricksCursor`)

A pandas `DataFrame` is modelled by its column labels and its row lists;
`pd.DataFrame()` is the frame with no columns and no rows, and `df.empty`
holds when either axis has length 0. -/

/-- The `(columns, rows)` pair of the pandas frame built by `run_query`. -/
structure DataFrame (α : Type) where
  columns : List (Option String)
  rows : List (List α)
deriving DecidableEq

/-- pandas `df.empty`: some axis has length 0. -/
def dataFrameEmpty {α : Type} (df : DataFrame α) : Bool :=
  df.rows.isEmpty || df.columns.isEmpty

/-- The shaping step of `run_query` applied to the final payload returned by
`_execute_statement`: an empty column list yields `pd.DataFrame()`, otherwise
`pd.DataFrame(data_array, columns=columns)`. -/
def runQueryFrame {α : Type} (finalPayload : StatementResponse α) : DataFrame α :=
  let columns := payloadColumns finalPayload
  let rows := payloadRows finalPayload
  if columns.isEmpty then { columns := [], rows := [] }
  else { columns := columns, rows := rows }

/-- One entry of `cursor.description`: the 7-tuple
`(col, None, None, None, None, None, None)` set by `DatabricksCursor.execute`;
the six positional fields after the name are always absent. -/
structure DescriptionEntry where
  name : Option String
  typeCode : Option Unit
  displaySize : Option Unit
  internalSize : Option Unit
  precision : Option Unit
  scale : Option Unit
  nullOk : Option Unit
deriving DecidableEq

/-- `(col, None, None, None, None, None, None)`. -/
def descriptionEntry (colName : Option String) : DescriptionEntry :=
  { name := colName, typeCode := none, displaySize := none,
    internalSize := none, precision := none, scale := none, nullOk := none }

/-- The state of a `DatabricksCursor`: the held frame `_df` and the held
`description`, both `None` until a statement is executed. -/
structure DatabricksCursor (α : Type) where
  df : Option (DataFrame α)
  description : Option (List DescriptionEntry)
deriving DecidableEq

/-- `DatabricksCursor.__init__`: `_df = None`, `description = None`. -/
def initCursor {α : Type} : DatabricksCursor α :=
  { df := none, description := none }

/-- `DatabricksCursor.execute` on the success path: overwrite `_df` with the
frame shaped from the final payload and rebuild `description` from its
columns; the previous cursor state is not consulted. -/
def cursorExecute {α : Type} (c : DatabricksCursor α)
    (finalPayload : StatementResponse α) : DatabricksCursor α :=
  let newDf := runQueryFrame finalPayload
  { df := some newDf
    description := some (newDf.columns.map descriptionEntry) }

/-- `DatabricksCursor.fetchall`: empty list when no frame is held or the
frame is empty, otherwise the rows in order (`itertuples` preserves row and
column order). -/
def cursorFetchall {α : Type} (c : DatabricksCursor α) : List (List α) :=
  match c.df with
  | none => []
  | some df => if dataFrameEmpty df then [] else df.rows

/-- `fetchall` in state-passing form: the source method mutates nothing, so
the cursor comes back unchanged next to the rows. -/
def cursorFetchallS {α : Type} (c : DatabricksCursor α) :
    List (List α) × DatabricksCursor α :=
  (cursorFetchall c, c)

/-- `DatabricksCursor.close`: `_df = None`, `description = None`. -/
def cursorClose {α : Type} (c : DatabricksCursor α) : DatabricksCursor α :=
  { df := none, description := none }

/-! ## Claims C5–C8 -/

/-- Claim C5: a `SUCCEEDED` payload whose column schema is missing or empty
shapes into the zero-column, zero-row frame, whatever `data_array` holds; the
shaping raises nothing (it is a total function). -/
theorem empty_schema_yields_empty_frame {α : Type} (p : StatementResponse α)
    (h : payloadSchema p = []) :
    runQueryFrame p = { columns := [], rows := [] } := by
  simp [runQueryFrame, payloadColumns, h]

/-- A `SUCCEEDED` payload with no schema manifest but a non-empty
`data_array`. -/
def noSchemaResponse : StatementResponse Int :=
  { statementId := some "stmt-11"
    status := some { state := some "SUCCEEDED", error := none }
    result := some { manifest := none, dataArray := some [[1], [2]] } }

theorem empty_schema_yields_empty_frame_witness :
    runQueryFrame noSchemaResponse =
      { columns := [], rows := [] } ∧
    payloadRows noSchemaResponse = [[1], [2]] :=
  ⟨empty_schema_yields_empty_frame noSchemaResponse (by decide), by decide⟩

/-- Claim C6: after a successful execute whose payload carries a non-empty
column schema (with positionally aligned rows), the cursor's `description`
lists the schema's column names in the schema manifest's order, and
`fetchall` returns the payload's data rows unchanged, each row aligned 1:1
with that column order. -/
theorem result_columns_align {α : Type} (maxPollAttempts : Option Nat)
    (initial : StatementResponse α) (backend : Nat → StatementResponse α)
    (fuel calls : Nat) (p : StatementResponse α) (c : DatabricksCursor α)
    (hexec : executeStatement maxPollAttempts initial backend fuel =
      (ExecOutcome.ok p, calls))
    (hcols : payloadColumns p ≠ [])
    (hlen : ∀ r, r ∈ payloadRows p → r.length = (payloadColumns p).length) :
    (cursorExecute c p).description =
      some ((payloadColumns p).map descriptionEntry) ∧
    cursorFetchall (cursorExecute c p) = payloadRows p := by
  have hcolsb : (payloadColumns p).isEmpty = false := by
    cases hpc : payloadColumns p with
    | nil => exact absurd hpc hcols
    | cons a l => simp
  constructor
  · simp [cursorExecute, runQueryFrame, hcolsb]
  · cases hr : payloadRows p with
    | nil =>
      simp [cursorExecute, cursorFetchall, runQueryFrame, dataFrameEmpty,
        hcolsb, hr]
    | cons r rs =>
      simp [cursorExecute, cursorFetchall, runQueryFrame, dataFrameEmpty,
        hcolsb, hr]

/-- The specification's example: schema `[colB, colA]`, rows `[[2, 1]]`. -/
def orderedResponse : StatementResponse Int :=
  { statementId := some "stmt-12"
    status := some { state := some "SUCCEEDED", error := none }
    result := some
      { manifest := some
          { schema := some [{ name := some "colB" }, { name := some "colA" }] }
        dataArray := some [[2, 1]] } }

theorem result_columns_align_witness :
    (cursorExecute initCursor orderedResponse).description =
      some [descriptionEntry (some "colB"), descriptionEntry (some "colA")] ∧
    cursorFetchall (cursorExecute initCursor orderedResponse) = [[2, 1]] := by
  have h := result_columns_align (some 120) orderedResponse
    (fun _ => orderedResponse) 9 0 orderedResponse initCursor
    (by decide) (by decide) (by decide)
  exact ⟨h.1.trans (by decide), h.2⟩

/-- Claim C7: a second `execute` on the same cursor discards the first result
entirely — the cursor state after the second `execute` is a function of the
second payload alone, so only the second result is retrievable through
`fetchall` and `description`. -/
theorem second_execute_discards_first {α : Type} (c : DatabricksCursor α)
    (p1 p2 : StatementResponse α) :
    cursorExecute (cursorExecute c p1) p2 = cursorExecute initCursor p2 ∧
    cursorFetchall (cursorExecute (cursorExecute c p1) p2) =
      cursorFetchall (cursorExecute initCursor p2) ∧
    (cursorExecute (cursorExecute c p1) p2).description =
      (cursorExecute initCursor p2).description :=
  ⟨rfl, rfl, rfl⟩

/-- Claim C8: `fetchall` after `close` is empty; `close` is idempotent;
`fetchall` leaves the cursor unchanged, so repeated calls agree; and
`fetchall` before any `execute` is empty. -/
theorem cursor_fetchall_close_algebra {α : Type} (c : DatabricksCursor α) :
    cursorFetchall (cursorClose c) = [] ∧
    cursorClose (cursorClose c) = cursorClose c ∧
    (cursorFetchallS (cursorFetchallS c).2).1 = (cursorFetchallS c).1 ∧
    (cursorFetchallS c).2 = c ∧
    cursorFetchall (initCursor : DatabricksCursor α) = [] :=
  ⟨rfl, rfl, rfl, rfl, rfl⟩

/-! ## Connector configuration (`_connector_from_config`,
`DatabricksConnector.__init__`)

Only the configuration keys the dispatch and the Databricks validation
consult are modelled; the remaining backend-specific keys are passed through
unexamined to native drivers, which are outside the verified core.  A `none`
field models a key that is absent or JSON `null`.  Construction performs no
network I/O in the source (no HTTP request is issued before `get_conn`), so
the embedding is a pure function with no backend argument. -/

/-- The connector configuration mapping. -/
structure ConnectorConfig where
  typeField : Option String
  host : Option String
  token : Option String
  warehouseId : Option String
deriving DecidableEq

/-- The constructed connector value.  Native variants store parameters this
development does not examine; the Databricks variant stores the REST call
parameters kept in `connection_kwargs`. -/
inductive Connector where
  | azureSql
  | postgresql
  | odbc
  | snowflake
  | databricks (host token warehouseId : String)
deriving DecidableEq

/-- `connector_type = (config.get("type") or "").upper()`. -/
def connectorTypeOf (cfg : ConnectorConfig) : String :=
  pyUpper (cfg.typeField.getD "")

/-- The keys of `connector_map` in `_connector_from_config`. -/
def supportedTypes : List String :=
  ["AZURE_SQL", "POSTGRESQL", "ODBC", "SNOWFLAKE", "DATABRICKS"]

/-- `DatabricksConnector.__init__`: binding `**kwargs` fails when a required
argument is absent (Python `TypeError`), then `if not token` and
`if not warehouse_id` raise `ValueError` with the source's messages.  Both
are construction-time configuration failures. -/
def databricksConnectorInit (host token warehouseId : Option String) :
    Except String Connector :=
  match host, token, warehouseId with
  | some h, some t, some w =>
    if t.data.isEmpty then
      Except.error "A Databricks personal access token is required."
    else if w.data.isEmpty then
      Except.error "A Databricks SQL warehouse ID is required."
    else Except.ok (Connector.databricks h t w)
  | _, _, _ =>
    Except.error "TypeError: DatabricksConnector missing a required argument."

/-- `_connector_from_config`: upper-case the `type` discriminator, reject an
empty one, look it up in `connector_map`, reject an unknown one naming it,
then construct the selected connector from the remaining keys. -/
def connectorFromConfig (cfg : ConnectorConfig) : Except String Connector :=
  let t := connectorTypeOf cfg
  if t = "" then
    Except.error "Connector configuration must include a \x27type\x27 field."
  else if t = "AZURE_SQL" then Except.ok Connector.azureSql
  else if t = "POSTGRESQL" then Except.ok Connector.postgresql
  else if t = "ODBC" then Except.ok Connector.odbc
  else if t = "SNOWFLAKE" then Except.ok Connector.snowflake
  else if t = "DATABRICKS" then
    databricksConnectorInit cfg.host cfg.token cfg.warehouseId
  else Except.error ("Unsupported connector type \x27" ++ t ++ "\x27.")

/-- Whether construction failed. -/
def exceptIsError {ε σ : Type} : Except ε σ → Bool
  | Except.error _ => true
  | Except.ok _ => false

/-- Claim C9: a configuration whose (upper-cased, non-empty) kind is outside
the supported set fails construction with the error naming that kind, and a
`DATABRICKS` configuration whose access token or warehouse identifier is
missing or empty fails construction; no variant of construction performs
network I/O (the embedding is a pure function of the configuration). -/
theorem connector_config_validation (cfg : ConnectorConfig) :
    (connectorTypeOf cfg ≠ "" → connectorTypeOf cfg ∉ supportedTypes →
      connectorFromConfig cfg =
        Except.error
          ("Unsupported connector type \x27" ++ connectorTypeOf cfg ++ "\x27.")) ∧
    (connectorTypeOf cfg = "DATABRICKS" →
      (pyFalsyOptStr cfg.token = true ∨ pyFalsyOptStr cfg.warehouseId = true) →
      exceptIsError (connectorFromConfig cfg) = true) := by
  constructor
  · intro hne hmem
    simp only [supportedTypes, List.mem_cons, List.not_mem_nil, or_false,
      not_or] at hmem
    obtain ⟨h1, h2, h3, h4, h5⟩ := hmem
    simp [connectorFromConfig, hne, h1, h2, h3, h4, h5]
  · intro ht hfalsy
    have hne : connectorTypeOf cfg ≠ "" := by rw [ht]; decide
    have h1 : connectorTypeOf cfg ≠ "AZURE_SQL" := by rw [ht]; decide
    have h2 : connectorTypeOf cfg ≠ "POSTGRESQL" := by rw [ht]; decide
    have h3 : connectorTypeOf cfg ≠ "ODBC" := by rw [ht]; decide
    have h4 : connectorTypeOf cfg ≠ "SNOWFLAKE" := by rw [ht]; decide
    simp only [connectorFromConfig, hne, h1, h2, h3, h4, ht, if_neg, if_pos,
      if_false, if_true]
    simp only [databricksConnectorInit]
    cases hh : cfg.host with
    | none => simp [exceptIsError]
    | some h =>
      cases htk : cfg.token with
      | none => simp [exceptIsError]
      | some t =>
        cases hw : cfg.warehouseId with
        | none => simp [exceptIsError]
        | some w =>
          rw [htk, hw] at hfalsy
          simp only [pyFalsyOptStr] at hfalsy
          rcases hfalsy with hf | hf
          · simp [exceptIsError, hf]
          · cases hte : t.data.isEmpty
            · simp [exceptIsError, hte, hf]
            · simp [exceptIsError, hte]

/-- A configuration with an unsupported kind (note the lower-case input is
upper-cased first), and a Databricks configuration with an empty token. -/
def mysqlConfig : ConnectorConfig :=
  { typeField := some "mysql", host := none, token := none, warehouseId := none }

def emptyTokenConfig : ConnectorConfig :=
  { typeField := some "databricks", host := some "adb.example.net"
    token := some "", warehouseId := some "wh1" }

theorem connector_config_validation_witness :
    connectorFromConfig mysqlConfig =
      Except.error "Unsupported connector type \x27MYSQL\x27." ∧
    exceptIsError (connectorFromConfig emptyTokenConfig) = true := by
  constructor
  · have h := (connector_config_validation mysqlConfig).1 (by decide) (by decide)
    exact h.trans (by rfl)
  · exact (connector_config_validation emptyTokenConfig).2 (by decide)
      (Or.inl (by decide))

/-! ## Host normalization and request URLs
(`DatabricksSQLConnection.__init__`, `_submit_statement`,
`_poll_for_completion`)

Python string operations are modelled on the character list of the string:
`startswith` is a literal-list match and `rstrip("/")` drops the maximal run
of trailing slashes.  `String.mk`/`String.data` move between the two views. -/

/-- `p` is a leading run of `l` (Python `l.startswith(p)`). -/
def listPre : List Char → List Char → Bool
  | [], _ => true
  | _ :: _, [] => false
  | p :: ps, c :: cs => p == c && listPre ps cs

/-- The characters of `"http://"`. -/
def httpScheme : List Char := ['h', 't', 't', 'p', ':', '/', '/']

/-- The characters of `"https://"`. -/
def httpsScheme : List Char := ['h', 't', 't', 'p', 's', ':', '/', '/']

/-- Python `rstrip("/")` on a character list. -/
def rstripSlash (l : List Char) : List Char :=
  (l.reverse.dropWhile (fun ch => ch == '/')).reverse

/-- The host normalization of `DatabricksSQLConnection.__init__`: prepend
`https://` when no scheme is present, then strip trailing slashes. -/
def normalizeHostChars (l : List Char) : List Char :=
  if listPre httpScheme l || listPre httpsScheme l then rstripSlash l
  else rstripSlash (httpsScheme ++ l)

/-- String view of the host normalization. -/
def normalizeHost (host : String) : String :=
  String.mk (normalizeHostChars host.data)

/-- The host part beyond any scheme marker. -/
def hostCore (l : List Char) : List Char :=
  if listPre httpScheme l then l.drop 7
  else if listPre httpsScheme l then l.drop 8
  else l

/-- `host.startswith("http://") or host.startswith("https://")`. -/
def hostHasScheme (s : String) : Bool :=
  listPre httpScheme s.data || listPre httpsScheme s.data

/-- `s.endswith("/")`. -/
def endsWithSlash (s : String) : Bool :=
  listPre ['/'] s.data.reverse

/-- The stored state of a `DatabricksSQLConnection` (the `poll_interval`
float, a pure wall-clock knob, is not modelled). -/
structure DatabricksSQLConnection where
  host : String
  token : String
  warehouseId : String
  catalog : Option String
  schema : Option String
  waitTimeout : String
  maxPollAttempts : Option Nat
  requestTimeout : Nat
deriving DecidableEq

/-- `DatabricksSQLConnection.__init__`: every field is stored as given except
the host, which is normalized. -/
def mkDatabricksSQLConnection (host token warehouseId : String)
    (catalog schema : Option String) (waitTimeout : String)
    (maxPollAttempts : Option Nat) (requestTimeout : Nat) :
    DatabricksSQLConnection :=
  { host := normalizeHost host, token := token, warehouseId := warehouseId
    catalog := catalog, schema := schema, waitTimeout := waitTimeout
    maxPollAttempts := maxPollAttempts, requestTimeout := requestTimeout }

/-- The POST URL of `_submit_statement`:
`f"{self.host}/api/2.0/sql/statements"`. -/
def submitUrl (conn : DatabricksSQLConnection) : String :=
  conn.host ++ "/api/2.0/sql/statements"

/-- The GET URL of `_poll_for_completion`:
`f"{self.host}/api/2.0/sql/statements/{statement_id}"`. -/
def pollUrl (conn : DatabricksSQLConnection) (statementId : String) : String :=
  conn.host ++ "/api/2.0/sql/statements/" ++ statementId

/-- A list is a leading run of itself followed by anything. -/
theorem listPre_append_self : ∀ p t : List Char, listPre p (p ++ t) = true := by
  intro p
  induction p with
  | nil => intro t; rfl
  | cons a as ih => intro t; simp [listPre, ih]

/-- A matched leading run decomposes the list. -/
theorem listPre_eq_append : ∀ p l : List Char, listPre p l = true →
    l = p ++ l.drop p.length := by
  intro p
  induction p with
  | nil => intro l _; rfl
  | cons a as ih =>
    intro l h
    cases l with
    | nil => exact absurd h (by simp [listPre])
    | cons c cs =>
      simp only [listPre, Bool.and_eq_true, beq_iff_eq] at h
      obtain ⟨rfl, h2⟩ := h
      simpa using ih cs h2

/-- `dropWhile` never crosses an element failing the predicate, so an
appended tail survives whenever the front list has such an element. -/
theorem dropWhile_append_keep {β : Type} (p : β → Bool) :
    ∀ l1 l2 : List β, (∃ x, x ∈ l1 ∧ p x = false) →
      List.dropWhile p (l1 ++ l2) = List.dropWhile p l1 ++ l2 := by
  intro l1
  induction l1 with
  | nil =>
    intro l2 h
    obtain ⟨x, hx, _⟩ := h
    exact absurd hx (List.not_mem_nil x)
  | cons a as ih =>
    intro l2 h
    cases hpa : p a with
    | false => simp [List.dropWhile_cons, hpa]
    | true =>
      obtain ⟨x, hx, hpx⟩ := h
      have hxas : x ∈ as := by
        rcases List.mem_cons.mp hx with rfl | hmem
        · rw [hpa] at hpx; cases hpx
        · exact hmem
      simp [List.dropWhile_cons, hpa, ih l2 ⟨x, hxas, hpx⟩]

/-- Stripping trailing slashes only eats into the tail when the tail holds a
non-slash character. -/
theorem rstripSlash_append (s t : List Char)
    (h : ∃ x, x ∈ t ∧ (x == '/') = false) :
    rstripSlash (s ++ t) = s ++ rstripSlash t := by
  obtain ⟨x, hx, hpx⟩ := h
  have hrev : ∃ y, y ∈ t.reverse ∧ (y == '/') = false :=
    ⟨x, List.mem_reverse.mpr hx, hpx⟩
  simp only [rstripSlash, List.reverse_append]
  rw [dropWhile_append_keep _ t.reverse s.reverse hrev]
  simp

/-- After `dropWhile (== '/')` the result cannot start with a slash. -/
theorem listPre_slash_dropWhile :
    ∀ l : List Char,
      listPre ['/'] (List.dropWhile (fun ch => ch == '/') l) = false := by
  intro l
  induction l with
  | nil => rfl
  | cons a as ih =>
    by_cases hpa : a = '/'
    · subst hpa
      simpa [List.dropWhile_cons] using ih
    · have h1 : (a == '/') = false := beq_eq_false_iff_ne.mpr hpa
      have h2 : ('/' == a) = false := beq_eq_false_iff_ne.mpr (Ne.symm hpa)
      simp [List.dropWhile_cons, h1, listPre, h2]

/-- A stripped host never ends with a slash. -/
theorem rstripSlash_no_trailing (l : List Char) :
    listPre ['/'] (rstripSlash l).reverse = false := by
  simp only [rstripSlash, List.reverse_reverse]
  exact listPre_slash_dropWhile l.reverse

/-- Scheme preservation of the host normalization, on character lists: when
the part beyond any scheme holds a non-slash character, the normalized host
keeps (or gains) its scheme, gaining `https://` when none was present. -/
theorem normalizeHostChars_scheme (l : List Char)
    (h : ∃ ch, ch ∈ hostCore l ∧ (ch == '/') = false) :
    (listPre httpScheme (normalizeHostChars l) = true ∨
      listPre httpsScheme (normalizeHostChars l) = true) ∧
    (listPre httpScheme l = false → listPre httpsScheme l = false →
      listPre httpsScheme (normalizeHostChars l) = true) := by
  by_cases h1 : listPre httpScheme l = true
  · obtain ⟨ch, hmem, hch⟩ := h
    have hcore : hostCore l = l.drop 7 := by simp [hostCore, h1]
    have hl : l = httpScheme ++ l.drop 7 := by
      simpa using listPre_eq_append httpScheme l h1
    rw [hcore] at hmem
    have hnorm : normalizeHostChars l = rstripSlash l := by
      simp [normalizeHostChars, h1]
    have hsplit : rstripSlash l = httpScheme ++ rstripSlash (l.drop 7) := by
      conv_lhs => rw [hl]
      exact rstripSlash_append _ _ ⟨ch, hmem, hch⟩
    refine ⟨Or.inl ?_, ?_⟩
    · rw [hnorm, hsplit]; exact listPre_append_self _ _
    · intro hc _; rw [h1] at hc; cases hc
  · by_cases h2 : listPre httpsScheme l = true
    · obtain ⟨ch, hmem, hch⟩ := h
      have hcore : hostCore l = l.drop 8 := by simp [hostCore, h1, h2]
      have hl : l = httpsScheme ++ l.drop 8 := by
        simpa using listPre_eq_append httpsScheme l h2
      rw [hcore] at hmem
      have hnorm : normalizeHostChars l = rstripSlash l := by
        simp [normalizeHostChars, h2]
      have hsplit : rstripSlash l = httpsScheme ++ rstripSlash (l.drop 8) := by
        conv_lhs => rw [hl]
        exact rstripSlash_append _ _ ⟨ch, hmem, hch⟩
      refine ⟨Or.inr ?_, ?_⟩
      · rw [hnorm, hsplit]; exact listPre_append_self _ _
      · intro _ hc; rw [h2] at hc; cases hc
    · obtain ⟨ch, hmem, hch⟩ := h
      have hcore : hostCore l = l := by simp [hostCore, h1, h2]
      rw [hcore] at hmem
      have hnorm : normalizeHostChars l = rstripSlash (httpsScheme ++ l) := by
        simp [normalizeHostChars, h1, h2]
      have hsplit : rstripSlash (httpsScheme ++ l) = httpsScheme ++ rstripSlash l :=
        rstripSlash_append _ _ ⟨ch, hmem, hch⟩
      refine ⟨Or.inr ?_, fun _ _ => ?_⟩
      · rw [hnorm, hsplit]; exact listPre_append_self _ _
      · rw [hnorm, hsplit]; exact listPre_append_self _ _

/-- Claim C10 (amended): for every host string whose part beyond any scheme
marker contains at least one character other than `/`, the stored host starts
with `http://` or `https://` — gaining `https://` when the input carried no
scheme — and never ends with `/`; and the submit POST URL and the poll GET
URL are both built from this normalized stored host. -/
theorem host_normalization (host token warehouseId : String)
    (catalog schema : Option String) (waitTimeout : String)
    (maxPollAttempts : Option Nat) (requestTimeout : Nat)
    (statementId : String)
    (h : ∃ ch, ch ∈ hostCore host.data ∧ (ch == '/') = false) :
    hostHasScheme (normalizeHost host) = true ∧
    (listPre httpScheme host.data = false →
      listPre httpsScheme host.data = false →
      listPre httpsScheme (normalizeHost host).data = true) ∧
    endsWithSlash (normalizeHost host) = false ∧
    (mkDatabricksSQLConnection host token warehouseId catalog schema
        waitTimeout maxPollAttempts requestTimeout).host = normalizeHost host ∧
    submitUrl (mkDatabricksSQLConnection host token warehouseId catalog schema
        waitTimeout maxPollAttempts requestTimeout) =
      normalizeHost host ++ "/api/2.0/sql/statements" ∧
    pollUrl (mkDatabricksSQLConnection host token warehouseId catalog schema
        waitTimeout maxPollAttempts requestTimeout) statementId =
      normalizeHost host ++ "/api/2.0/sql/statements/" ++ statementId := by
  obtain ⟨hscheme, hgain⟩ := normalizeHostChars_scheme host.data h
  refine ⟨?_, hgain, ?_, rfl, rfl, rfl⟩
  · simp only [hostHasScheme, normalizeHost, Bool.or_eq_true]
    exact hscheme
  · simp only [endsWithSlash, normalizeHost, normalizeHostChars]
    by_cases hc : (listPre httpScheme host.data ||
        listPre httpsScheme host.data) = true
    · rw [if_pos hc]
      exact rstripSlash_no_trailing host.data
    · rw [if_neg hc]
      exact rstripSlash_no_trailing _

/-- Counterexample to claim C10 as stated: the empty host string (whose core
beyond the scheme is empty) normalizes to `"https:"` — the prefix check runs
before `rstrip("/")`, which then eats the scheme's own slashes — so the
stored host does not start with `http://` or `https://`. -/
theorem host_normalization_cex :
    normalizeHost "" = "https:" ∧
    hostHasScheme (normalizeHost "") = false := by
  exact ⟨by decide, by decide⟩

theorem host_normalization_witness :
    hostHasScheme (normalizeHost "adb.example.net/") = true ∧
    endsWithSlash (normalizeHost "adb.example.net/") = false ∧
    listPre httpsScheme (normalizeHost "adb.example.net/").data = true ∧
    submitUrl (mkDatabricksSQLConnection "adb.example.net/" "tok" "wh1" none
        none "40s" (some 120) 60) =
      normalizeHost "adb.example.net/" ++ "/api/2.0/sql/statements" := by
  have h := host_normalization "adb.example.net/" "tok" "wh1" none none "40s"
    (some 120) 60 "stmt-1" ⟨'a', by decide, by decide⟩
  exact ⟨h.1, h.2.2.1, h.2.1 (by decide) (by decide), h.2.2.2.2.1⟩
